import Mathlib

/-!
Shallow embedding of the resume relevance scoring engine
(`scoring_engine.py` and the matching helpers of `nlp_processor.py`).

Numeric scores are modelled as exact rationals.  The attribute extraction
step (skills, experience years, education level pulled out of free text by
keyword matching and a named-entity model) is abstracted to its outputs: a
`ResumeInfo` record carrying the extracted skill list, years and education
string, exactly the shape `calculate_hard_match_score` consumes.  The two
external collaborators (the lexical tf-idf similarity and the semantic
judgment service) are modelled as inputs, mirroring the narrow contracts the
engine relies on.
-/

namespace ResumeRelevance

/-- Fueled Levenshtein edit distance over character lists with insertion and
deletion cost 1 and substitution cost 2.  Models the normalized
string-edit-distance underlying the `fuzz.ratio` similarity used by the
engine (Levenshtein-ratio: the matched mass is `lensum - distance`).  The
fuel argument makes the recursion structural; callers pass
`xs.length + ys.length`, which is always sufficient. -/
def levFuel : Nat → List Char → List Char → Nat
  | 0, xs, ys => xs.length + ys.length
  | fuel + 1, xs, ys =>
    match xs, ys with
    | [], ys => ys.length
    | xs, [] => xs.length
    | x :: xs, y :: ys =>
      if x = y then levFuel fuel xs ys
      else
        min (min (1 + levFuel fuel xs (y :: ys)) (1 + levFuel fuel (x :: xs) ys))
          (2 + levFuel fuel xs ys)

/-- Edit distance between two strings (substitution cost 2). -/
def editDistance2 (s t : String) : Nat :=
  levFuel (s.data.length + t.data.length) s.data t.data

/-- Similarity ratio on the 0 to 100 scale, rounded half-up:
`round(100 * (lensum - distance) / lensum)`, and 100 when both strings are
empty.  Models `fuzz.ratio`. -/
def fuzzRatio (s t : String) : Nat :=
  let l := s.data.length + t.data.length
  if l = 0 then 100
  else (2 * (100 * (l - editDistance2 s t)) + l) / (2 * l)

/-- Lowercase a string character by character, modelling the lowercasing
the engine applies before comparing skill strings.  Defined over the
character list so that concrete instances reduce inside the kernel. -/
def lowerStr (s : String) : String :=
  ⟨s.data.map Char.toLower⟩

/-- Lowercase every skill string, as the engine does before comparing. -/
def lowerAll (skills : List String) : List String :=
  skills.map lowerStr

/-- Count of exact case-insensitive matches:
`len(set(lowered resume skills) & set(lowered job skills))`. -/
def exactMatchCount (resume job : List String) : Nat :=
  ((lowerAll resume).dedup.filter (fun s => (lowerAll job).contains s)).length

/-- Predicate of the fuzzy inner loop: the resume skill clears the 80
threshold against some skill of the job list. -/
def fuzzyHit (job : List String) (rs : String) : Bool :=
  job.any (fun js => 80 < fuzzRatio (lowerStr rs) (lowerStr js))

/-- Count of fuzzy matches, translated from the nested loop with `break`:
the outer loop walks the resume skills and the counter grows by one the
first time the inner loop over the job skills clears the threshold, so each
resume skill contributes at most once. -/
def fuzzyMatchCount (resume job : List String) : Nat :=
  resume.foldl (fun acc rs => if fuzzyHit job rs then acc + 1 else acc) 0

/-- Matched count per skill category: the engine adds exact and fuzzy
matches (`exact_required_matches + fuzzy_required_matches`). -/
def matchedCount (resume job : List String) : Nat :=
  exactMatchCount resume job + fuzzyMatchCount resume job

/-- Denominator used for a skill category: the list length, defaulting to 1
when the list is empty (`len(required_skills) if required_skills else 1`). -/
def totalInCategory (skills : List String) : Nat :=
  if skills.isEmpty then 1 else skills.length

/-- Score of one skill category:
`min(100, (exact + fuzzy) / total * 100)`. -/
def skillScore (resume job : List String) : ℚ :=
  min 100 (((matchedCount resume job : ℚ) / (totalInCategory job : ℚ)) * 100)

/-- Experience sub-score: full credit when nothing is required, otherwise
`min(1, resume_years / required_years) * 100`. -/
def experienceScore (resumeYears requiredYears : Nat) : ℚ :=
  if requiredYears = 0 then 100
  else min 1 ((resumeYears : ℚ) / (requiredYears : ℚ)) * 100

/-- Ordered education hierarchy; any string other than the five named
levels (including the literal `unknown`) maps to 0, mirroring
`education_hierarchy.get(x, 0)`. -/
def educationHierarchy (level : String) : Nat :=
  if level = "high_school" then 1
  else if level = "diploma" then 2
  else if level = "bachelors" then 3
  else if level = "masters" then 4
  else if level = "phd" then 5
  else 0

/-- Education sub-score: 100 when the requirement maps to level 0 or the
resume level reaches it, otherwise `max(0, resume_level / required_level *
100)`. -/
def educationScore (resumeEdu requiredEdu : String) : ℚ :=
  let r := educationHierarchy resumeEdu
  let q := educationHierarchy requiredEdu
  if q = 0 then 100
  else if q ≤ r then 100
  else max 0 (((r : ℚ) / (q : ℚ)) * 100)

/-- Extracted resume attributes consumed by the hard-match calculator. -/
structure ResumeInfo where
  skills : List String
  experienceYears : Nat
  education : String
  deriving Repr, DecidableEq

/-- Structured job requirements record. -/
structure JobRequirements where
  required_skills : List String
  preferred_skills : List String
  experience_required : Nat
  education_required : String
  deriving Repr, DecidableEq

/-- Per-dimension breakdown retained alongside the aggregate hard score. -/
structure HardMatchDetails where
  required_score : ℚ
  preferred_score : ℚ
  matched_required : Nat
  matched_preferred : Nat
  total_required : Nat
  total_preferred : Nat
  experience_score : ℚ
  education_score : ℚ
  deriving Repr, DecidableEq

/-- Hard match calculator: weighted aggregate of the four sub-scores with
weights 0.5, 0.2, 0.2, 0.1, returned together with the breakdown. -/
def calculate_hard_match_score (resume : ResumeInfo) (jr : JobRequirements) :
    ℚ × HardMatchDetails :=
  let requiredScore := skillScore resume.skills jr.required_skills
  let preferredScore := skillScore resume.skills jr.preferred_skills
  let expScore := experienceScore resume.experienceYears jr.experience_required
  let eduScore := educationScore resume.education jr.education_required
  let total := requiredScore * 0.5 + preferredScore * 0.2 + expScore * 0.2 + eduScore * 0.1
  (total,
    { required_score := requiredScore
      preferred_score := preferredScore
      matched_required := matchedCount resume.skills jr.required_skills
      matched_preferred := matchedCount resume.skills jr.preferred_skills
      total_required := totalInCategory jr.required_skills
      total_preferred := totalInCategory jr.preferred_skills
      experience_score := expScore
      education_score := eduScore })

/-- Gap report assembled by `identify_missing_skills`. -/
structure MissingElements where
  missing_required_skills : List String
  missing_preferred_skills : List String
  experience_gap_years : Nat
  education_gap : Bool
  current_education : String
  required_education : String
  deriving Repr, DecidableEq

/-- Missing-skills identification: a lowered job skill is missing when no
lowered resume skill clears the 80 fuzzy threshold against it. -/
def identify_missing_skills (resume : ResumeInfo) (jr : JobRequirements) :
    MissingElements :=
  let rs := lowerAll resume.skills
  let req := lowerAll jr.required_skills
  let pref := lowerAll jr.preferred_skills
  { missing_required_skills :=
      req.filter (fun s => !(rs.any (fun r => 80 < fuzzRatio s r)))
    missing_preferred_skills :=
      pref.filter (fun s => !(rs.any (fun r => 80 < fuzzRatio s r)))
    experience_gap_years := jr.experience_required - resume.experienceYears
    education_gap :=
      educationHierarchy resume.education < educationHierarchy jr.education_required
    current_education := resume.education
    required_education := jr.education_required }

/-- Verdict from the relevance score alone: High at 75 and above, Medium at
50 and above, Low below 50. -/
def determine_verdict (relevanceScore : ℚ) : String :=
  if 75 ≤ relevanceScore then "High"
  else if 50 ≤ relevanceScore then "Medium"
  else "Low"

/-- Outcome of a call to the external reasoning service: the client may be
unconfigured, the call may raise, or it may return a parsed payload. -/
inductive ServiceOutcome (α : Type) where
  | unavailable : ServiceOutcome α
  | failed (err : String) : ServiceOutcome α
  | ok (value : α) : ServiceOutcome α
  deriving Repr, DecidableEq

/-- Fixed fallback suggestions returned when no client is configured. -/
def genericSuggestions : List String :=
  ["Consider acquiring the missing technical skills identified in the analysis",
   "Highlight relevant project experience more prominently",
   "Add specific metrics and achievements to demonstrate impact"]

/-- Fixed fallback suggestions returned when the service call raises. -/
def exceptionSuggestions : List String :=
  ["Consider acquiring the missing technical skills",
   "Add more specific project details and achievements",
   "Improve resume format and structure for better readability"]

/-- Suggestion generator: fixed fallbacks when the service is absent or
fails; on success the parsed payload may or may not carry a suggestions
field, and a missing field defaults to the empty list
(`result.get(key, [])`). -/
def generate_improvement_suggestions
    (ai : ServiceOutcome (Option (List String))) : List String :=
  match ai with
  | .unavailable => genericSuggestions
  | .failed _ => exceptionSuggestions
  | .ok payload => payload.getD []

/-- Semantic score taken from the analysis payload of the judgment service:
50 when the service is absent or failed (its internal fallback dictionaries
carry score 50), and `payload.get(score_key, 50)` on success. -/
def aiSemanticScore (ai : ServiceOutcome (Option ℚ)) : ℚ :=
  match ai with
  | .unavailable => 50
  | .failed _ => 50
  | .ok payload => payload.getD 50

/-- Rounding to two decimal places applied to the reported scores. -/
def round2 (x : ℚ) : ℚ :=
  ((round (x * 100) : ℤ) : ℚ) / 100

/-- Result record of a full evaluation.  The nested details dictionary is
projected to its error marker, the only part of it the contracts touch:
`details_error = some e` models `evaluation_details = {error: e}` and `none`
models the regular breakdown record. -/
structure EvaluationResult where
  relevance_score : ℚ
  hard_match_score : ℚ
  semantic_match_score : ℚ
  verdict : String
  missing_skills : List String
  improvement_suggestions : List String
  details_error : Option String
  deriving Repr, DecidableEq

/-- Fallback result built by the exception handler of `evaluate_resume`. -/
def errorResult (e : String) : EvaluationResult :=
  { relevance_score := 0
    hard_match_score := 0
    semantic_match_score := 0
    verdict := "Low"
    missing_skills := []
    improvement_suggestions := ["Error occurred during evaluation"]
    details_error := some e }

/-- Body of the evaluation pipeline on successfully extracted inputs:
hard match, blended semantic score (0.4 lexical + 0.6 judged), relevance
(0.6 hard + 0.4 semantic), verdict, gap report and suggestions. -/
def evaluate_resume_body (resume : ResumeInfo) (tfidfScore : ℚ)
    (ai : ServiceOutcome (Option ℚ)) (sugg : ServiceOutcome (Option (List String)))
    (jr : JobRequirements) : EvaluationResult :=
  let hard := (calculate_hard_match_score resume jr).1
  let combined := tfidfScore * 0.4 + aiSemanticScore ai * 0.6
  let relevance := hard * 0.6 + combined * 0.4
  let missing := identify_missing_skills resume jr
  { relevance_score := round2 relevance
    hard_match_score := round2 hard
    semantic_match_score := round2 combined
    verdict := determine_verdict relevance
    missing_skills :=
      missing.missing_required_skills ++ missing.missing_preferred_skills
    improvement_suggestions := generate_improvement_suggestions sugg
    details_error := none }

/-- Boundary of `evaluate_resume`: an unexpected exception anywhere in the
body is caught and converted to the fallback result. -/
def evaluate_resume (body : Except String EvaluationResult) : EvaluationResult :=
  match body with
  | .ok r => r
  | .error e => errorResult e

/-- Full pipeline: the fallible prefix of the body (extraction of the
resume attributes) is an `Except` value; on success the pure body runs, and
an exception is converted by the handler. -/
def evaluateResumePipeline (extraction : Except String ResumeInfo)
    (tfidfScore : ℚ) (ai : ServiceOutcome (Option ℚ))
    (sugg : ServiceOutcome (Option (List String))) (jr : JobRequirements) :
    EvaluationResult :=
  evaluate_resume (extraction.map (fun ri => evaluate_resume_body ri tfidfScore ai sugg jr))

/-- Matched count as the specification words it: each job skill counted at
most once, when some resume skill is an exact case-insensitive match or
clears the 80 fuzzy threshold.  Stated from the spec for comparison with
`matchedCount`, which is translated from the source. -/
def specMatchedCount (resume job : List String) : Nat :=
  (job.filter (fun js =>
    resume.any (fun rs =>
      lowerStr rs = lowerStr js || 80 < fuzzRatio (lowerStr rs) (lowerStr js)))).length

/-- Resume of the end-to-end scenario of the spec: extracted skills python
and sql, five years of experience, bachelors-level education. -/
def demoResume : ResumeInfo :=
  { skills := ["python", "sql"], experienceYears := 5, education := "bachelors" }

/-- Job requirements of the end-to-end scenario of the spec. -/
def demoJob : JobRequirements :=
  { required_skills := ["python", "aws"]
    preferred_skills := ["sql"]
    experience_required := 3
    education_required := "bachelors" }

/-! Helper lemmas shared by the claim theorems. -/

lemma foldl_count_eq_countP {α : Type} (p : α → Bool) (l : List α) (n : Nat) :
    l.foldl (fun acc x => if p x then acc + 1 else acc) n = n + l.countP p := by
  induction l generalizing n with
  | nil => simp
  | cons x xs ih =>
    by_cases h : p x
    · simp only [List.foldl_cons, List.countP_cons, h, if_true, ih]
      omega
    · simp [List.countP_cons, h, ih]

lemma fuzzyMatchCount_eq_countP (resume job : List String) :
    fuzzyMatchCount resume job = resume.countP (fuzzyHit job) := by
  unfold fuzzyMatchCount
  simpa using foldl_count_eq_countP (fuzzyHit job) resume 0

lemma totalInCategory_pos (skills : List String) : 0 < totalInCategory skills := by
  unfold totalInCategory
  split
  · exact Nat.one_pos
  · rename_i h
    simpa [List.isEmpty_iff_length_eq_zero] using Nat.pos_of_ne_zero (by simpa [List.isEmpty_iff_length_eq_zero] using h)

lemma skillScore_nonneg (resume job : List String) : 0 ≤ skillScore resume job := by
  unfold skillScore
  apply le_min (by norm_num)
  positivity

lemma skillScore_le_100 (resume job : List String) : skillScore resume job ≤ 100 :=
  min_le_left _ _

lemma experienceScore_nonneg (r req : Nat) : 0 ≤ experienceScore r req := by
  unfold experienceScore
  split
  · norm_num
  · have h1 : (0:ℚ) ≤ min 1 ((r : ℚ) / (req : ℚ)) := le_min (by norm_num) (by positivity)
    nlinarith

lemma experienceScore_le_100 (r req : Nat) : experienceScore r req ≤ 100 := by
  unfold experienceScore
  split
  · norm_num
  · have h1 : min 1 ((r : ℚ) / (req : ℚ)) ≤ 1 := min_le_left _ _
    have h0 : (0:ℚ) ≤ min 1 ((r : ℚ) / (req : ℚ)) := le_min (by norm_num) (by positivity)
    nlinarith

lemma educationScore_nonneg (rEdu reqEdu : String) : 0 ≤ educationScore rEdu reqEdu := by
  unfold educationScore
  dsimp only
  split
  · norm_num
  · split
    · norm_num
    · exact le_max_left _ _

lemma educationScore_le_100 (rEdu reqEdu : String) : educationScore rEdu reqEdu ≤ 100 := by
  unfold educationScore
  dsimp only
  split
  · norm_num
  · split
    · norm_num
    · rename_i hq hlt
      apply max_le (by norm_num)
      have hqpos : 0 < (educationHierarchy reqEdu : ℚ) := by
        exact_mod_cast Nat.pos_of_ne_zero hq
      have hle : (educationHierarchy rEdu : ℚ) ≤ (educationHierarchy reqEdu : ℚ) := by
        exact_mod_cast Nat.le_of_lt (Nat.lt_of_not_le hlt)
      have : (educationHierarchy rEdu : ℚ) / (educationHierarchy reqEdu : ℚ) ≤ 1 :=
        (div_le_one hqpos).mpr hle
      nlinarith

lemma hard_match_score_nonneg (resume : ResumeInfo) (jr : JobRequirements) :
    0 ≤ (calculate_hard_match_score resume jr).1 := by
  have h1 := skillScore_nonneg resume.skills jr.required_skills
  have h2 := skillScore_nonneg resume.skills jr.preferred_skills
  have h3 := experienceScore_nonneg resume.experienceYears jr.experience_required
  have h4 := educationScore_nonneg resume.education jr.education_required
  unfold calculate_hard_match_score
  dsimp only
  nlinarith

lemma hard_match_score_le_100 (resume : ResumeInfo) (jr : JobRequirements) :
    (calculate_hard_match_score resume jr).1 ≤ 100 := by
  have h1 := skillScore_le_100 resume.skills jr.required_skills
  have h2 := skillScore_le_100 resume.skills jr.preferred_skills
  have h3 := experienceScore_le_100 resume.experienceYears jr.experience_required
  have h4 := educationScore_le_100 resume.education jr.education_required
  unfold calculate_hard_match_score
  dsimp only
  nlinarith

lemma aiSemanticScore_bounds (ai : ServiceOutcome (Option ℚ))
    (hai : ∀ s : ℚ, ai = ServiceOutcome.ok (some s) → 0 ≤ s ∧ s ≤ 100) :
    0 ≤ aiSemanticScore ai ∧ aiSemanticScore ai ≤ 100 := by
  cases ai with
  | unavailable => norm_num [aiSemanticScore]
  | failed e => norm_num [aiSemanticScore]
  | ok payload =>
    cases payload with
    | none => norm_num [aiSemanticScore]
    | some s => simpa [aiSemanticScore] using hai s rfl

lemma round2_nonneg {x : ℚ} (hx : 0 ≤ x) : 0 ≤ round2 x := by
  unfold round2
  have h : (0:ℤ) ≤ round (x * 100) := by
    rw [round_eq]
    exact Int.le_floor.mpr (by push_cast; linarith)
  have h2 : (0:ℚ) ≤ ((round (x * 100) : ℤ) : ℚ) := by exact_mod_cast h
  apply div_nonneg h2 (by norm_num)

lemma round2_le_100 {x : ℚ} (hx : x ≤ 100) : round2 x ≤ 100 := by
  unfold round2
  have h : round (x * 100) ≤ 10000 := by
    rw [round_eq]
    have hlt : x * 100 + 1 / 2 < ((10001 : ℤ) : ℚ) := by push_cast; linarith
    have := Int.floor_lt.mpr hlt
    omega
  rw [div_le_iff₀ (by norm_num : (0:ℚ) < 100)]
  have h2 : ((round (x * 100) : ℤ) : ℚ) ≤ (10000 : ℚ) := by exact_mod_cast h
  linarith

/-! Claim theorems. -/

/-- C2 counterexample: with resume skills [python] and job skills [python],
the engine counts the single job skill twice — once as an exact match and
once again in the fuzzy pass (the ratio of a string with itself is 100,
above the threshold) — so the matched count is 2, while the claimed
per-job-skill count is 1. -/
theorem matched_count_double_counts_counterexample :
    matchedCount ["python"] ["python"] = 2 ∧
    specMatchedCount ["python"] ["python"] = 1 ∧
    matchedCount ["python"] ["python"] ≠ specMatchedCount ["python"] ["python"] := by
  decide

/-- C2 amended: the matched count of a category is the exact count (size of
the intersection of the lowered skill sets) plus one fuzzy hit per RESUME
skill whose ratio against some job skill of the category exceeds 80; the
fuzzy pass counts resume skills, not job skills, and an exact match is
counted again by the fuzzy pass wherever it also clears the threshold. -/
theorem matched_count_characterization :
    ∀ resume job : List String,
      matchedCount resume job =
        exactMatchCount resume job +
          resume.countP
            (fun rs => job.any (fun js => 80 < fuzzRatio (lowerStr rs) (lowerStr js))) := by
  intro resume job
  unfold matchedCount
  rw [fuzzyMatchCount_eq_countP]
  rfl

/-- C4: the verdict is a total function of the relevance score alone, with
High on [75, inf), Medium on [50, 75) and Low on (-inf, 50), and the four
boundary evaluations behave as the specification states. -/
theorem determine_verdict_total_spec :
    (∀ s : ℚ,
      (determine_verdict s = "High" ↔ 75 ≤ s) ∧
      (determine_verdict s = "Medium" ↔ 50 ≤ s ∧ s < 75) ∧
      (determine_verdict s = "Low" ↔ s < 50)) ∧
    determine_verdict 75 = "High" ∧
    determine_verdict (74.999 : ℚ) = "Medium" ∧
    determine_verdict 50 = "Medium" ∧
    determine_verdict (49.999 : ℚ) = "Low" := by
  constructor
  · intro s
    by_cases h75 : 75 ≤ s
    · have h50 : 50 ≤ s := le_trans (by norm_num) h75
      unfold determine_verdict
      rw [if_pos h75]
      refine ⟨⟨fun _ => h75, fun _ => rfl⟩, ?_, ?_⟩
      · constructor
        · intro h
          exact absurd h (by decide)
        · rintro ⟨-, hlt⟩
          exact absurd h75 (not_le.mpr hlt)
      · constructor
        · intro h
          exact absurd h (by decide)
        · intro hlt
          linarith
    · by_cases h50 : 50 ≤ s
      · unfold determine_verdict
        rw [if_neg h75, if_pos h50]
        refine ⟨?_, ⟨fun _ => ⟨h50, not_le.mp h75⟩, fun _ => rfl⟩, ?_⟩
        · constructor
          · intro h
            exact absurd h (by decide)
          · intro h
            exact absurd h h75
        · constructor
          · intro h
            exact absurd h (by decide)
          · intro hlt
            linarith
      · unfold determine_verdict
        rw [if_neg h75, if_neg h50]
        refine ⟨?_, ?_, ⟨fun _ => not_le.mp h50, fun _ => rfl⟩⟩
        · constructor
          · intro h
            exact absurd h (by decide)
          · intro h
            exact absurd (le_trans (by norm_num) h) h50
        · constructor
          · intro h
            exact absurd h (by decide)
          · rintro ⟨hge, -⟩
            exact absurd hge h50
  · refine ⟨by norm_num [determine_verdict], ?_, by norm_num [determine_verdict], ?_⟩
    · norm_num [determine_verdict]
    · norm_num [determine_verdict]

/-- C5: when the body of the evaluation raises, the handler returns the
well-formed fallback result: all three scores 0, verdict Low, empty
missing-skills list, a single diagnostic suggestion, and the error marker
in the details record; no exception propagates. -/
theorem evaluate_resume_exception_contract :
    ∀ (e : String) (tfidfScore : ℚ) (ai : ServiceOutcome (Option ℚ))
      (sugg : ServiceOutcome (Option (List String))) (jr : JobRequirements),
      evaluateResumePipeline (Except.error e) tfidfScore ai sugg jr =
        { relevance_score := 0
          hard_match_score := 0
          semantic_match_score := 0
          verdict := "Low"
          missing_skills := []
          improvement_suggestions := ["Error occurred during evaluation"]
          details_error := some e } ∧
      (evaluateResumePipeline
          (Except.error e) tfidfScore ai sugg jr).improvement_suggestions.length = 1 := by
  intro e t ai sugg jr
  exact ⟨rfl, rfl⟩

/-- C6: with an empty required-skills list the denominator defaults to 1,
so the category score is a total-function value of 0 — not 100 and not a
division failure — for every resume skill list. -/
theorem empty_required_skills_zero_score :
    ∀ resume : List String,
      totalInCategory ([] : List String) = 1 ∧ skillScore resume [] = 0 := by
  intro resume
  constructor
  · rfl
  · have hf : fuzzyMatchCount resume [] = 0 := by
      rw [fuzzyMatchCount_eq_countP]
      simp [fuzzyHit]
    have he : exactMatchCount resume [] = 0 := by
      simp [exactMatchCount, lowerAll]
    unfold skillScore matchedCount
    rw [hf, he]
    norm_num [totalInCategory]

/-- C7 counterexample: when the external call succeeds but the parsed
payload carries no suggestions field (or an empty one), the generator
returns the empty list, so the returned list is not always non-empty. -/
theorem suggestions_success_empty_counterexample :
    generate_improvement_suggestions (ServiceOutcome.ok none) = [] ∧
    generate_improvement_suggestions (ServiceOutcome.ok (some [])) = [] :=
  ⟨rfl, rfl⟩

/-- C7 amended: the generator returns the fixed 3-element generic list when
the service is unconfigured and the fixed 3-element fallback list when the
call fails, but on success it returns exactly the parsed suggestions value,
which may be empty. -/
theorem suggestions_fallback_spec :
    generate_improvement_suggestions ServiceOutcome.unavailable = genericSuggestions ∧
    genericSuggestions.length = 3 ∧
    (∀ e : String,
      generate_improvement_suggestions (ServiceOutcome.failed e) = exceptionSuggestions) ∧
    exceptionSuggestions.length = 3 ∧
    (∀ l : List String,
      generate_improvement_suggestions (ServiceOutcome.ok (some l)) = l) :=
  ⟨rfl, rfl, fun _ => rfl, rfl, fun _ => rfl⟩

/-- C1 counterexample: on the end-to-end scenario the engine does not give
the required-skill sub-score 50 and overall hard score 75 the claim
states: the exact match of python is counted again by the fuzzy pass, so
the required category matches 2 of 2 and both values come out as 100. -/
theorem demo_scenario_counterexample :
    (calculate_hard_match_score demoResume demoJob).2.required_score = 100 ∧
    (calculate_hard_match_score demoResume demoJob).2.required_score ≠ 50 ∧
    (calculate_hard_match_score demoResume demoJob).1 = 100 ∧
    (calculate_hard_match_score demoResume demoJob).1 ≠ 75 := by
  have hmr : matchedCount demoResume.skills demoJob.required_skills = 2 := by decide
  have hmp : matchedCount demoResume.skills demoJob.preferred_skills = 2 := by decide
  have hreq : skillScore demoResume.skills demoJob.required_skills = 100 := by
    unfold skillScore
    rw [hmr]
    norm_num [totalInCategory, demoJob, min_def]
  have hpref : skillScore demoResume.skills demoJob.preferred_skills = 100 := by
    unfold skillScore
    rw [hmp]
    norm_num [totalInCategory, demoJob, min_def]
  have hexp : experienceScore demoResume.experienceYears demoJob.experience_required = 100 := by
    unfold experienceScore
    norm_num [demoResume, demoJob, min_def]
  have hedu : educationScore demoResume.education demoJob.education_required = 100 := by
    have hb : educationHierarchy "bachelors" = 3 := by decide
    show educationScore "bachelors" "bachelors" = 100
    unfold educationScore
    dsimp only
    rw [hb]
    norm_num
  refine ⟨?_, ?_, ?_, ?_⟩ <;>
    · unfold calculate_hard_match_score
      dsimp only
      simp only [hreq, hpref, hexp, hedu]
      try norm_num

/-- C1 amended: on the end-to-end scenario the experience and education
sub-scores are 100 as claimed, but the required-skill sub-score is 100
(matched count 2 of 2, the exact python match being counted once exactly
and once fuzzily), the preferred sub-score is 100, the overall hard score
is 100, and the missing-skills report is exactly [aws] (required) with no
missing preferred skill. -/
theorem demo_scenario_amended :
    (calculate_hard_match_score demoResume demoJob).2.experience_score = 100 ∧
    (calculate_hard_match_score demoResume demoJob).2.education_score = 100 ∧
    (calculate_hard_match_score demoResume demoJob).2.required_score = 100 ∧
    (calculate_hard_match_score demoResume demoJob).2.preferred_score = 100 ∧
    (calculate_hard_match_score demoResume demoJob).2.matched_required = 2 ∧
    (calculate_hard_match_score demoResume demoJob).1 = 100 ∧
    (identify_missing_skills demoResume demoJob).missing_required_skills = ["aws"] ∧
    (identify_missing_skills demoResume demoJob).missing_preferred_skills = [] := by
  have hmr : matchedCount demoResume.skills demoJob.required_skills = 2 := by decide
  have hmp : matchedCount demoResume.skills demoJob.preferred_skills = 2 := by decide
  have hreq : skillScore demoResume.skills demoJob.required_skills = 100 := by
    unfold skillScore
    rw [hmr]
    norm_num [totalInCategory, demoJob, min_def]
  have hpref : skillScore demoResume.skills demoJob.preferred_skills = 100 := by
    unfold skillScore
    rw [hmp]
    norm_num [totalInCategory, demoJob, min_def]
  have hexp : experienceScore demoResume.experienceYears demoJob.experience_required = 100 := by
    unfold experienceScore
    norm_num [demoResume, demoJob, min_def]
  have hedu : educationScore demoResume.education demoJob.education_required = 100 := by
    have hb : educationHierarchy "bachelors" = 3 := by decide
    show educationScore "bachelors" "bachelors" = 100
    unfold educationScore
    dsimp only
    rw [hb]
    norm_num
  refine ⟨?_, ?_, ?_, ?_, by decide, ?_, by decide, by decide⟩ <;>
    · unfold calculate_hard_match_score
      dsimp only
      simp only [hreq, hpref, hexp, hedu]
      try norm_num

/-- C8: the experience sub-score is 100 whenever the requirement is 0
(whatever the resume years), is otherwise min(1, resume/required) * 100,
and always lies between 0 and 100. -/
theorem experience_score_spec :
    ∀ r req : Nat,
      experienceScore r req =
        (if req = 0 then (100 : ℚ) else min 1 ((r : ℚ) / (req : ℚ)) * 100) ∧
      0 ≤ experienceScore r req ∧ experienceScore r req ≤ 100 :=
  fun r req => ⟨rfl, experienceScore_nonneg r req, experienceScore_le_100 r req⟩

/-- C9: the education sub-score follows the ordered hierarchy exactly as
claimed — full credit when the requirement maps to 0 or is reached,
otherwise the level ratio times 100 (the clamp at 0 in the source is
vacuous since levels are non-negative) — the six recognized names map to
their claimed ranks, and bachelors against masters scores 75. -/
theorem education_score_spec :
    ∀ rEdu reqEdu : String,
      educationScore rEdu reqEdu =
        (if educationHierarchy reqEdu = 0 then (100 : ℚ)
         else if educationHierarchy reqEdu ≤ educationHierarchy rEdu then 100
         else ((educationHierarchy rEdu : ℚ) / (educationHierarchy reqEdu : ℚ)) * 100) ∧
      educationScore "bachelors" "masters" = 75 ∧
      educationHierarchy "unknown" = 0 ∧ educationHierarchy "high_school" = 1 ∧
      educationHierarchy "diploma" = 2 ∧ educationHierarchy "bachelors" = 3 ∧
      educationHierarchy "masters" = 4 ∧ educationHierarchy "phd" = 5 := by
  intro rEdu reqEdu
  refine ⟨?_, ?_, by decide, by decide, by decide, by decide, by decide, by decide⟩
  · unfold educationScore
    dsimp only
    split
    · rfl
    · split
      · rfl
      · apply max_eq_right
        positivity
  · have hb : educationHierarchy "bachelors" = 3 := by decide
    have hm : educationHierarchy "masters" = 4 := by decide
    unfold educationScore
    dsimp only
    rw [hb, hm]
    norm_num [max_def]

/-- C10: any education requirement string outside the six recognized level
names maps to hierarchy level 0, so the education sub-score is 100
regardless of the resume education. -/
theorem unrecognized_education_full_credit :
    ∀ reqEdu rEdu : String,
      reqEdu ∉ ["high_school", "diploma", "bachelors", "masters", "phd", "unknown"] →
      educationHierarchy reqEdu = 0 ∧ educationScore rEdu reqEdu = 100 := by
  intro reqEdu rEdu h
  simp only [List.mem_cons, List.not_mem_nil, or_false, not_or] at h
  obtain ⟨h1, h2, h3, h4, h5, -⟩ := h
  have h0 : educationHierarchy reqEdu = 0 := by
    unfold educationHierarchy
    rw [if_neg h1, if_neg h2, if_neg h3, if_neg h4, if_neg h5]
  refine ⟨h0, ?_⟩
  unfold educationScore
  dsimp only
  rw [h0]
  norm_num

/-- C10 witness: the unrecognized requirement string "bootcamp" gets
hierarchy level 0 and grants the full education score to a resume whose
extracted education is only high-school level. -/
theorem unrecognized_education_full_credit_witness :
    "bootcamp" ∉ ["high_school", "diploma", "bachelors", "masters", "phd", "unknown"] ∧
    (educationHierarchy "bootcamp" = 0 ∧ educationScore "high_school" "bootcamp" = 100) :=
  ⟨by decide, unrecognized_education_full_credit "bootcamp" "high_school" (by decide)⟩

lemma evaluate_resume_body_fields (ri : ResumeInfo) (t : ℚ)
    (ai : ServiceOutcome (Option ℚ)) (sugg : ServiceOutcome (Option (List String)))
    (jr : JobRequirements) :
    (evaluate_resume_body ri t ai sugg jr).relevance_score =
      round2 ((calculate_hard_match_score ri jr).1 * 0.6 +
        (t * 0.4 + aiSemanticScore ai * 0.6) * 0.4) ∧
    (evaluate_resume_body ri t ai sugg jr).hard_match_score =
      round2 (calculate_hard_match_score ri jr).1 ∧
    (evaluate_resume_body ri t ai sugg jr).semantic_match_score =
      round2 (t * 0.4 + aiSemanticScore ai * 0.6) :=
  ⟨rfl, rfl, rfl⟩

/-- C3: whenever the lexical similarity input lies in [0,100] (as its
contract provides) and any successfully parsed external semantic score lies
in [0,100], the three reported scores of the evaluation result —
relevance, hard match and semantic match — all lie in [0,100], on the
success path as well as on the exception path. -/
theorem evaluate_scores_within_range :
    ∀ (extraction : Except String ResumeInfo) (tfidfScore : ℚ)
      (ai : ServiceOutcome (Option ℚ)) (sugg : ServiceOutcome (Option (List String)))
      (jr : JobRequirements),
      0 ≤ tfidfScore → tfidfScore ≤ 100 →
      (∀ s : ℚ, ai = ServiceOutcome.ok (some s) → 0 ≤ s ∧ s ≤ 100) →
      (0 ≤ (evaluateResumePipeline extraction tfidfScore ai sugg jr).relevance_score ∧
        (evaluateResumePipeline extraction tfidfScore ai sugg jr).relevance_score ≤ 100) ∧
      (0 ≤ (evaluateResumePipeline extraction tfidfScore ai sugg jr).hard_match_score ∧
        (evaluateResumePipeline extraction tfidfScore ai sugg jr).hard_match_score ≤ 100) ∧
      (0 ≤ (evaluateResumePipeline extraction tfidfScore ai sugg jr).semantic_match_score ∧
        (evaluateResumePipeline extraction tfidfScore ai sugg jr).semantic_match_score ≤ 100) := by
  intro extraction t ai sugg jr ht0 ht1 hai
  cases extraction with
  | error e =>
    have hpipe : evaluateResumePipeline (Except.error e) t ai sugg jr = errorResult e := rfl
    rw [hpipe]
    unfold errorResult
    norm_num
  | ok ri =>
    have hpipe : evaluateResumePipeline (Except.ok ri) t ai sugg jr =
        evaluate_resume_body ri t ai sugg jr := rfl
    have hfields := evaluate_resume_body_fields ri t ai sugg jr
    have hai2 := aiSemanticScore_bounds ai hai
    have hh0 := hard_match_score_nonneg ri jr
    have hh1 := hard_match_score_le_100 ri jr
    have hc0 : 0 ≤ t * 0.4 + aiSemanticScore ai * 0.6 := by nlinarith [hai2.1, hai2.2]
    have hc1 : t * 0.4 + aiSemanticScore ai * 0.6 ≤ 100 := by nlinarith [hai2.1, hai2.2]
    have hr0 : 0 ≤ (calculate_hard_match_score ri jr).1 * 0.6 +
        (t * 0.4 + aiSemanticScore ai * 0.6) * 0.4 := by nlinarith
    have hr1 : (calculate_hard_match_score ri jr).1 * 0.6 +
        (t * 0.4 + aiSemanticScore ai * 0.6) * 0.4 ≤ 100 := by nlinarith
    rw [hpipe, hfields.1, hfields.2.1, hfields.2.2]
    exact ⟨⟨round2_nonneg hr0, round2_le_100 hr1⟩,
      ⟨round2_nonneg hh0, round2_le_100 hh1⟩,
      ⟨round2_nonneg hc0, round2_le_100 hc1⟩⟩

/-- C3 witness: a concrete run — extraction succeeded with one skill, the
lexical score is 50, the external judgment returned 60 — satisfies every
hypothesis and lands all three reported scores inside [0,100]. -/
theorem evaluate_scores_within_range_witness :
    (0 ≤ (evaluateResumePipeline (Except.ok ⟨["python"], 2, "unknown"⟩) 50
        (ServiceOutcome.ok (some 60)) ServiceOutcome.unavailable
        ⟨["python"], [], 1, "bachelors"⟩).relevance_score ∧
      (evaluateResumePipeline (Except.ok ⟨["python"], 2, "unknown"⟩) 50
        (ServiceOutcome.ok (some 60)) ServiceOutcome.unavailable
        ⟨["python"], [], 1, "bachelors"⟩).relevance_score ≤ 100) ∧
    (0 ≤ (evaluateResumePipeline (Except.ok ⟨["python"], 2, "unknown"⟩) 50
        (ServiceOutcome.ok (some 60)) ServiceOutcome.unavailable
        ⟨["python"], [], 1, "bachelors"⟩).hard_match_score ∧
      (evaluateResumePipeline (Except.ok ⟨["python"], 2, "unknown"⟩) 50
        (ServiceOutcome.ok (some 60)) ServiceOutcome.unavailable
        ⟨["python"], [], 1, "bachelors"⟩).hard_match_score ≤ 100) ∧
    (0 ≤ (evaluateResumePipeline (Except.ok ⟨["python"], 2, "unknown"⟩) 50
        (ServiceOutcome.ok (some 60)) ServiceOutcome.unavailable
        ⟨["python"], [], 1, "bachelors"⟩).semantic_match_score ∧
      (evaluateResumePipeline (Except.ok ⟨["python"], 2, "unknown"⟩) 50
        (ServiceOutcome.ok (some 60)) ServiceOutcome.unavailable
        ⟨["python"], [], 1, "bachelors"⟩).semantic_match_score ≤ 100) :=
  evaluate_scores_within_range (Except.ok ⟨["python"], 2, "unknown"⟩) 50
    (ServiceOutcome.ok (some 60)) ServiceOutcome.unavailable
    ⟨["python"], [], 1, "bachelors"⟩ (by norm_num) (by norm_num)
    (by
      intro s hs
      injection hs with h
      injection h with h2
      subst h2
      norm_num)

end ResumeRelevance
